import Mathlib

/-!
A shallow embedding of the OpenXR API layer template's dispatch module
(`src/openxr-api-layer/framework/dispatch.cpp`), together with proofs about
its negotiation, forwarding, rollback, enumeration and routing behaviour.

Modelling conventions:
* `XrResult` is an `Int` with the values of the OpenXR headers; `XR_SUCCEEDED`
  is `0 ≤ r` and `XR_FAILED` is `r < 0`, as in the C macros.
* C pointers that can be null are `Option`; a null output pointer is a `false`
  "present" flag and an unwritten output is `none`.
* The `std::unordered_map` accumulating available extensions is an association
  list; `emplace` inserts only when the key is absent (first-seen wins), which
  is the exact `std::unordered_map::emplace` semantics used by the source.
* Downstream components reachable only through function pointers (other
  layers, the runtime, the layer singleton's `xrCreateInstance` /
  `xrGetInstanceProcAddr`) are parameters of the model (`ProbeTarget`,
  `CreateEnv`, `ProcAddrEnv`): the model quantifies over their behaviour.
* C++ exceptions are modelled with `Except`: a region guarded by a
  `try`/`catch` in the source converts an injected fault into a status code;
  an unguarded region propagates it as `Except.error`.
-/

/-! ## XrResult codes and loader constants (values from the OpenXR headers) -/

def XR_SUCCESS : Int := 0
def XR_ERROR_VALIDATION_FAILURE : Int := -1
def XR_ERROR_RUNTIME_FAILURE : Int := -2
def XR_ERROR_INITIALIZATION_FAILED : Int := -6
def XR_ERROR_FUNCTION_UNSUPPORTED : Int := -7
def XR_ERROR_EXTENSION_NOT_PRESENT : Int := -9
def XR_ERROR_SIZE_INSUFFICIENT : Int := -11

/-- The `XR_SUCCEEDED` macro: non-negative result codes are successes. -/
def XR_SUCCEEDED (r : Int) : Bool := decide (0 ≤ r)

/-- The `XR_FAILED` macro: negative result codes are failures. -/
def XR_FAILED (r : Int) : Bool := decide (r < 0)

def XR_LOADER_INTERFACE_STRUCT_API_LAYER_CREATE_INFO : Nat := 4
def XR_LOADER_INTERFACE_STRUCT_API_LAYER_NEXT_INFO : Nat := 5
def XR_API_LAYER_CREATE_INFO_STRUCT_VERSION : Nat := 1
def XR_API_LAYER_NEXT_INFO_STRUCT_VERSION : Nat := 1

/-- `sizeof(XrApiLayerCreateInfo)`; only compared for equality. -/
def sizeofXrApiLayerCreateInfo : Nat := 536

/-- `sizeof(XrApiLayerNextInfo)`; only compared for equality. -/
def sizeofXrApiLayerNextInfo : Nat := 3616

def XR_MAX_API_LAYER_NAME_SIZE : Nat := 256
def XR_MAX_API_LAYER_DESCRIPTION_SIZE : Nat := 256

/-- `#define THISLAYER_VERSION 1` in dispatch.cpp. -/
def THISLAYER_VERSION : Nat := 1

/-- `#define THISLAYER_DESC "An API layer template"` in dispatch.cpp. -/
def THISLAYER_DESC : String := "An API layer template"

/-! ## Configuration: the layer's process-wide registry

`LAYER_NAME`, `implicitExtensions`, `blockedExtensions` and
`advertisedExtensions` are process-wide constants declared in `layer.h` and
consumed by dispatch.cpp; the model takes them as a parameter record. -/

structure Config where
  layerName : String
  implicitExtensions : List String
  blockedExtensions : List String
  advertisedExtensions : List (String × Nat)
deriving DecidableEq

/-! ## Extension probing (`appendAvailableExtensions`) -/

/-- One `XrExtensionProperties` entry (name and version fields). -/
structure ExtensionProperties where
  extensionName : String
  extensionVersion : Nat
deriving DecidableEq

/-- The value-initialized `XrExtensionProperties{XR_TYPE_EXTENSION_PROPERTIES}`
used to fill the probe buffer: zeroed name (empty string) and version 0. -/
def defaultExtensionProperties : ExtensionProperties := ⟨"", 0⟩

/-- The observable behaviour of one downstream link when probed through its
`getInstanceProcAddr` accessor for `xrEnumerateInstanceExtensionProperties`:
the status of resolving that function, the status and written count of the
count query (capacity-0 call), and the status of the fill call together with
the entries the callee writes into the supplied buffer. -/
structure ProbeTarget where
  resolveResult : Int
  countResult : Int
  countValue : Nat
  fillResult : Int
  fillEntries : List ExtensionProperties
deriving DecidableEq

/-- The contents of the `std::vector<XrExtensionProperties>` buffer after the
resolve / count / fill sequence of `appendAvailableExtensions` (dispatch.cpp
lines 40-47): the vector is sized by the count written by the count query
(0 when resolution failed, so the count query never ran), pre-filled with
default entries, and overwritten by the fill call only when both the
resolution and the count query succeeded.  The fill call's own status is
never consulted by the source (`stillOK` is dead after line 47). -/
def probeBuffer (p : ProbeTarget) : List ExtensionProperties :=
  let stillOK := p.resolveResult
  let extCount := if XR_SUCCEEDED stillOK then p.countValue else 0
  let stillOK := if XR_SUCCEEDED stillOK then p.countResult else stillOK
  let extensions := List.replicate extCount defaultExtensionProperties
  if XR_SUCCEEDED stillOK then
    p.fillEntries.take extCount
      ++ List.replicate (extCount - p.fillEntries.length) defaultExtensionProperties
  else
    extensions

/-- Lookup in the availability map (`std::unordered_map::find`): the value
paired with the first occurrence of the key. -/
def lookupExtension : List (String × Nat) → String → Option Nat
  | [], _ => none
  | e :: rest, name => if e.1 == name then some e.2 else lookupExtension rest name

/-- `std::unordered_map::emplace`: inserts `(name, version)` only when `name`
is not already a key, so the first-seen version is retained. -/
def emplaceExtension (m : List (String × Nat)) (name : String) (version : Nat) :
    List (String × Nat) :=
  if (lookupExtension m name).isSome then m else m ++ [(name, version)]

/-- `appendAvailableExtensions` (dispatch.cpp lines 38-53): folds every entry
of the probe buffer into the availability map via `emplace`. -/
def appendAvailableExtensions (p : ProbeTarget) (availableExtensions : List (String × Nat)) :
    List (String × Nat) :=
  (probeBuffer p).foldl
    (fun m ext => emplaceExtension m ext.extensionName ext.extensionVersion)
    availableExtensions

/-! ## The handshake envelope -/

/-- One `XrApiLayerNextInfo` node.  `advertise` is the probe behaviour
observed when this link is asked for its extension properties during the
chain walk of dispatch.cpp lines 90-95. -/
structure NextInfoNode where
  structType : Nat
  structVersion : Nat
  structSize : Nat
  layerName : Option String
  hasNextGetInstanceProcAddr : Bool
  hasNextCreateApiLayerInstance : Bool
  advertise : ProbeTarget
deriving DecidableEq

/-- `XrApiLayerCreateInfo`; `nextInfo` is the linked `XrApiLayerNextInfo`
chain as a list ([] models a null `nextInfo` pointer). -/
structure ApiLayerCreateInfo where
  structType : Nat
  structVersion : Nat
  structSize : Nat
  nextInfo : List NextInfoNode
deriving DecidableEq

/-- The caller's `XrInstanceCreateInfo` (the field dispatch.cpp reads). -/
structure InstanceCreateInfo where
  enabledExtensionNames : List String
deriving DecidableEq

/-- Validation of the head `XrApiLayerNextInfo` (dispatch.cpp lines 65-69). -/
def validNextInfoHead (cfg : Config) (head : NextInfoNode) : Bool :=
  head.structType == XR_LOADER_INTERFACE_STRUCT_API_LAYER_NEXT_INFO &&
  head.structVersion == XR_API_LAYER_NEXT_INFO_STRUCT_VERSION &&
  head.structSize == sizeofXrApiLayerNextInfo &&
  (match head.layerName with
   | none => false
   | some nm => nm == cfg.layerName) &&
  head.hasNextGetInstanceProcAddr &&
  head.hasNextCreateApiLayerInstance

/-- The whole validation condition of dispatch.cpp lines 62-69 (on a non-null
`apiLayerInfo`): structure tag, version and size of the envelope, a non-null
`nextInfo` head naming this layer with non-null downstream accessors. -/
def validApiLayerInfo (cfg : Config) (info : ApiLayerCreateInfo) : Bool :=
  info.structType == XR_LOADER_INTERFACE_STRUCT_API_LAYER_CREATE_INFO &&
  info.structVersion == XR_API_LAYER_CREATE_INFO_STRUCT_VERSION &&
  info.structSize == sizeofXrApiLayerCreateInfo &&
  (match info.nextInfo with
   | [] => false
   | head :: _ => validNextInfoHead cfg head)

/-! ## Capability negotiation -/

/-- The chain walk of dispatch.cpp lines 90-97: probe every link after the
head in order, then the runtime (null layer name through the last link's
accessor), accumulating into one availability map, runtime last. -/
def collectAvailableExtensions (nodes : List NextInfoNode) (runtime : ProbeTarget) :
    List (String × Nat) :=
  appendAvailableExtensions runtime
    (nodes.foldl (fun m node => appendAvailableExtensions node.advertise m) [])

/-- The negotiation loop of dispatch.cpp lines 99-107: for each implicit
extension in order, keep it when present in the availability map, otherwise
fail immediately naming the missing extension. -/
def negotiateImplicit : List String → List (String × Nat) → Except String (List String)
  | [], _ => .ok []
  | name :: rest, avail =>
    if (lookupExtension avail name).isSome then
      match negotiateImplicit rest avail with
      | .ok granted => .ok (name :: granted)
      | .error e => .error e
    else
      .error name

/-- The forwarded extension list of dispatch.cpp lines 111-129: the caller's
requested names with every blocked name removed (order preserved), followed
by the negotiated implicit extensions. -/
def forwardedExtensionList (cfg : Config) (ici : InstanceCreateInfo)
    (granted : List String) : List String :=
  ici.enabledExtensionNames.filter (fun ext => !(cfg.blockedExtensions.contains ext))
    ++ granted

/-! ## Instance creation (`xrCreateApiLayerInstance`) -/

deriving instance DecidableEq for Except

/-- The downstream behaviour `xrCreateApiLayerInstance` interacts with:
the runtime's probe behaviour, the result of the next link's
`nextCreateApiLayerInstance`, the layer singleton's `xrCreateInstance`
(a returned status, or a thrown exception message), the status of resolving
`xrDestroyInstance` through the downstream accessor, and an optional fault
raised in the (unguarded) logging/negotiation region after validation. -/
structure CreateEnv where
  runtimeAdvertise : ProbeTarget
  nextCreateResult : Int
  localInit : Except String Int
  destroyResolveResult : Int
  negotiationFault : Option String
deriving DecidableEq

/-- Observable downstream interactions of one `xrCreateApiLayerInstance`
call: how many links were probed, whether the next link's creation entry
point was invoked and with which extension list, whether the layer's own
`xrCreateInstance` ran, and how often `xrDestroyInstance` was resolved and
invoked. -/
structure CreateEffects where
  probeCalls : Nat
  downstreamCreateCalled : Bool
  forwardedExtensionNames : Option (List String)
  localInitCalled : Bool
  destroyResolveAttempts : Nat
  destroyInvocations : Nat
deriving DecidableEq

/-- The effects of a call that made no downstream call of any kind. -/
def noEffects : CreateEffects := ⟨0, false, none, false, 0, 0⟩

/-- Steps 5-7 of the bootstrap (dispatch.cpp lines 111-158): build the
forwarded list, call the next link's creation entry point, and on exact
`XR_SUCCESS` run the layer's own `xrCreateInstance` (exceptions caught to
`XR_ERROR_RUNTIME_FAILURE`), rolling back via `xrDestroyInstance` (resolved
through the downstream accessor; invoked only when resolution succeeds) when
the adopted result is a failure. -/
def createForwardAndAttach (cfg : Config) (env : CreateEnv) (ici : InstanceCreateInfo)
    (granted : List String) (probes : Nat) : Int × CreateEffects :=
  let fwd := forwardedExtensionList cfg ici granted
  let result := env.nextCreateResult
  if result == XR_SUCCESS then
    let result :=
      match env.localInit with
      | .ok r => r
      | .error _ => XR_ERROR_RUNTIME_FAILURE
    if XR_FAILED result then
      let invocations := if XR_SUCCEEDED env.destroyResolveResult then 1 else 0
      (result, ⟨probes, true, some fwd, true, 1, invocations⟩)
    else
      (result, ⟨probes, true, some fwd, true, 0, 0⟩)
  else
    (result, ⟨probes, true, some fwd, false, 0, 0⟩)

/-- The body of `xrCreateApiLayerInstance` after successful validation
(dispatch.cpp lines 74-158).  The chain dump and negotiation region is not
guarded by any `try`/`catch` in the source, so a fault raised there
propagates out of the entry point (`Except.error`).  Negotiation runs only
when the layer has implicit extensions; a missing implicit extension returns
`XR_ERROR_EXTENSION_NOT_PRESENT` without calling downstream creation. -/
def createAfterValidation (cfg : Config) (env : CreateEnv) (ici : InstanceCreateInfo)
    (tailNodes : List NextInfoNode) : Except String (Int × CreateEffects) :=
  match env.negotiationFault with
  | some f => .error f
  | none =>
    if cfg.implicitExtensions.isEmpty then
      .ok (createForwardAndAttach cfg env ici [] 0)
    else
      let avail := collectAvailableExtensions tailNodes env.runtimeAdvertise
      let probes := tailNodes.length + 1
      match negotiateImplicit cfg.implicitExtensions avail with
      | .error _ => .ok (XR_ERROR_EXTENSION_NOT_PRESENT, { noEffects with probeCalls := probes })
      | .ok granted => .ok (createForwardAndAttach cfg env ici granted probes)

/-- `xrCreateApiLayerInstance` (dispatch.cpp lines 56-167).  A null
`apiLayerInfo` or any validation mismatch returns
`XR_ERROR_INITIALIZATION_FAILED` with no downstream call of any kind. -/
def xrCreateApiLayerInstance (cfg : Config) (env : CreateEnv) (ici : InstanceCreateInfo)
    (apiLayerInfo : Option ApiLayerCreateInfo) : Except String (Int × CreateEffects) :=
  match apiLayerInfo with
  | none => .ok (XR_ERROR_INITIALIZATION_FAILED, noEffects)
  | some info =>
    if validApiLayerInfo cfg info then
      createAfterValidation cfg env ici info.nextInfo.tail
    else
      .ok (XR_ERROR_INITIALIZATION_FAILED, noEffects)

/-- The returned status of a create call, when it returned one at all
(`none` when a fault escaped the entry point). -/
def outcomeResult (r : Except String (Int × CreateEffects)) : Option Int :=
  match r with
  | .ok p => some p.1
  | .error _ => none

/-- The downstream interactions of a create call, when it returned at all. -/
def outcomeEffects (r : Except String (Int × CreateEffects)) : Option CreateEffects :=
  match r with
  | .ok p => some p.2
  | .error _ => none

/-! ## Extension enumeration (`xrEnumerateInstanceExtensionProperties`) -/

/-- The observable outcome of an enumeration call: the returned status, what
was written to `*propertyCountOutput` (`none` = left unwritten) and which
entries were written into the `properties` buffer (`none` = none written). -/
structure EnumOutcome where
  result : Int
  countWritten : Option Nat
  propertiesWritten : Option (List ExtensionProperties)
deriving DecidableEq

/-- `xrEnumerateInstanceExtensionProperties` (dispatch.cpp lines 170-217).
The whole body is guarded by `try`/`catch (std::exception)`, so an injected
fault becomes `XR_ERROR_RUNTIME_FAILURE`.  A null count output, null layer
name, or layer name different from this layer's own name is a validation
failure; capacity 0 writes only the advertised count; with a non-null buffer
a too-small capacity is `XR_ERROR_SIZE_INSUFFICIENT` (nothing written) and a
sufficient one fills exactly the advertised entries and the count; a null
buffer with non-zero capacity is a validation failure. -/
def xrEnumerateInstanceExtensionProperties (cfg : Config) (fault : Option String)
    (layerName : Option String) (propertyCapacityInput : Nat)
    (countOutputPresent : Bool) (propertiesPresent : Bool) : EnumOutcome :=
  match fault with
  | some _ => ⟨XR_ERROR_RUNTIME_FAILURE, none, none⟩
  | none =>
    match layerName, countOutputPresent with
    | none, _ => ⟨XR_ERROR_VALIDATION_FAILURE, none, none⟩
    | some _, false => ⟨XR_ERROR_VALIDATION_FAILURE, none, none⟩
    | some nm, true =>
      if nm != cfg.layerName then
        ⟨XR_ERROR_VALIDATION_FAILURE, none, none⟩
      else
        let numExtensionProperties := cfg.advertisedExtensions.length
        if propertyCapacityInput == 0 then
          ⟨XR_SUCCESS, some numExtensionProperties, none⟩
        else if propertiesPresent then
          if propertyCapacityInput < numExtensionProperties then
            ⟨XR_ERROR_SIZE_INSUFFICIENT, none, none⟩
          else
            ⟨XR_SUCCESS, some numExtensionProperties,
              some (cfg.advertisedExtensions.map (fun e => ⟨e.1, e.2⟩))⟩
        else
          ⟨XR_ERROR_VALIDATION_FAILURE, none, none⟩

/-! ## Layer enumeration (`xrEnumerateApiLayerProperties`) -/

/-- One `XrApiLayerProperties` entry as filled by the source. -/
structure ApiLayerProperties where
  layerName : String
  description : String
  layerVersion : Nat
  specVersion : Nat
deriving DecidableEq

/-- `XR_MAKE_VERSION(1, 0, XR_VERSION_PATCH(XR_CURRENT_API_VERSION))`; the
patch component of the header's current API version, folded into a single
version constant. -/
def layerSpecVersion : Nat := 1 <<< 48

/-- The observable outcome of a layer-properties enumeration call. -/
structure LayerEnumOutcome where
  result : Int
  countWritten : Option Nat
  propertiesWritten : Option ApiLayerProperties
deriving DecidableEq

/-- `xrEnumerateApiLayerProperties` (dispatch.cpp lines 220-274): same
two-call protocol with exactly one reported entry (this layer), name and
description truncated to their fixed-size buffers; the whole body is guarded
by `try`/`catch (std::exception)`. -/
def xrEnumerateApiLayerProperties (cfg : Config) (fault : Option String)
    (propertyCapacityInput : Nat) (countOutputPresent : Bool)
    (propertiesPresent : Bool) : LayerEnumOutcome :=
  match fault with
  | some _ => ⟨XR_ERROR_RUNTIME_FAILURE, none, none⟩
  | none =>
    if !countOutputPresent then
      ⟨XR_ERROR_VALIDATION_FAILURE, none, none⟩
    else if propertyCapacityInput == 0 then
      ⟨XR_SUCCESS, some 1, none⟩
    else if propertiesPresent then
      if propertyCapacityInput < 1 then
        ⟨XR_ERROR_SIZE_INSUFFICIENT, none, none⟩
      else
        ⟨XR_SUCCESS, some 1,
          some ⟨cfg.layerName.take (XR_MAX_API_LAYER_NAME_SIZE - 1),
                THISLAYER_DESC.take (XR_MAX_API_LAYER_DESCRIPTION_SIZE - 1),
                THISLAYER_VERSION, layerSpecVersion⟩⟩
    else
      ⟨XR_ERROR_VALIDATION_FAILURE, none, none⟩

/-! ## Function-pointer routing (`xrGetInstanceProcAddr`) -/

/-- The value held by the caller's `*function` slot: one of this layer's own
enumeration overrides, whatever the per-instance dispatcher stored, or an
arbitrary value the caller had stored before the call. -/
inductive FunctionSlot where
  | ownEnumerateInstanceExtensionProperties
  | ownEnumerateApiLayerProperties
  | dispatcherValue
  | raw (v : Nat)
deriving DecidableEq

/-- The environment of one `xrGetInstanceProcAddr` call: the status returned
by the per-instance dispatcher when delegated to, what the dispatcher stores
into the function slot (`none` = leaves it untouched), and an optional fault
(caught by the entry point's `try`/`catch`). -/
structure ProcAddrEnv where
  dispatcherResult : Int
  dispatcherWrites : Option FunctionSlot
  fault : Option String
deriving DecidableEq

/-- `xrGetInstanceProcAddr` (dispatch.cpp lines 277-303).  Fixed priority:
the two enumeration overrides resolve to this layer's own implementations
regardless of the instance handle; otherwise a non-null name with a non-null
instance handle is delegated to the per-instance dispatcher; otherwise the
initial `XR_ERROR_FUNCTION_UNSUPPORTED` stands and the slot is untouched. -/
def xrGetInstanceProcAddr (env : ProcAddrEnv) (instancePresent : Bool)
    (name : Option String) (slot : FunctionSlot) : Int × FunctionSlot :=
  match env.fault with
  | some _ => (XR_ERROR_RUNTIME_FAILURE, slot)
  | none =>
    match name with
    | some n =>
      if n == "xrEnumerateInstanceExtensionProperties" then
        (XR_SUCCESS, .ownEnumerateInstanceExtensionProperties)
      else if n == "xrEnumerateApiLayerProperties" then
        (XR_SUCCESS, .ownEnumerateApiLayerProperties)
      else if instancePresent then
        (env.dispatcherResult, env.dispatcherWrites.getD slot)
      else
        (XR_ERROR_FUNCTION_UNSUPPORTED, slot)
    | none => (XR_ERROR_FUNCTION_UNSUPPORTED, slot)

/-! ## Derived views of the negotiation used by the theorems -/

/-- Concatenation of a list of lists. -/
def concatLists {α : Type} : List (List α) → List α
  | [] => []
  | l :: ls => l ++ concatLists ls

/-- The `(name, version)` entries one probe folds into the availability map. -/
def probeEntries (p : ProbeTarget) : List (String × Nat) :=
  (probeBuffer p).map (fun e => (e.extensionName, e.extensionVersion))

/-- All entries contributed across the chain walk, in probing order (every
link after the head, then the runtime). -/
def chainContributedEntries (nodes : List NextInfoNode) (runtime : ProbeTarget) :
    List (String × Nat) :=
  concatLists (nodes.map (fun n => probeEntries n.advertise)) ++ probeEntries runtime

/-- The union (with multiplicity and order) of the capability names yielded
by all downstream links including the runtime. -/
def chainAvailableNames (nodes : List NextInfoNode) (runtime : ProbeTarget) : List String :=
  (chainContributedEntries nodes runtime).map Prod.fst

/-- Folding a list of `(name, version)` entries into a map via `emplace`. -/
def applyEntries (m : List (String × Nat)) (entries : List (String × Nat)) :
    List (String × Nat) :=
  entries.foldl (fun acc e => emplaceExtension acc e.1 e.2) m

/-- Left-biased choice on optional versions. -/
def optOr : Option Nat → Option Nat → Option Nat
  | some v, _ => some v
  | none, o => o

/-! ## Concrete sample data for witnesses and counterexamples -/

/-- A probe whose link advertises extension `"X"` at version 1. -/
def probeYieldX1 : ProbeTarget := ⟨0, 0, 1, 0, [⟨"X", 1⟩]⟩

/-- A probe whose link advertises extension `"X"` at version 2. -/
def probeYieldX2 : ProbeTarget := ⟨0, 0, 1, 0, [⟨"X", 2⟩]⟩

/-- A probe for which resolving the enumeration function fails. -/
def probeResolveFails : ProbeTarget := ⟨-1, 0, 0, 0, []⟩

/-- A probe whose count query succeeds reporting one extension but whose
fill call fails, writing nothing into the buffer. -/
def probeFillFails : ProbeTarget := ⟨0, 0, 1, -2, []⟩

/-- A structurally valid head `XrApiLayerNextInfo` naming layer `"L"`. -/
def headNodeL : NextInfoNode :=
  ⟨XR_LOADER_INTERFACE_STRUCT_API_LAYER_NEXT_INFO, XR_API_LAYER_NEXT_INFO_STRUCT_VERSION,
   sizeofXrApiLayerNextInfo, some "L", true, true, probeResolveFails⟩

/-- A downstream layer node advertising `"X"` version 1. -/
def nodeAdvX1 : NextInfoNode :=
  ⟨XR_LOADER_INTERFACE_STRUCT_API_LAYER_NEXT_INFO, XR_API_LAYER_NEXT_INFO_STRUCT_VERSION,
   sizeofXrApiLayerNextInfo, some "L1", true, true, probeYieldX1⟩

/-- A downstream layer node advertising `"X"` version 2. -/
def nodeAdvX2 : NextInfoNode :=
  ⟨XR_LOADER_INTERFACE_STRUCT_API_LAYER_NEXT_INFO, XR_API_LAYER_NEXT_INFO_STRUCT_VERSION,
   sizeofXrApiLayerNextInfo, some "L2", true, true, probeYieldX2⟩

/-- A structurally valid envelope whose chain is the head alone (runtime
reached directly through the head's accessor). -/
def infoRuntimeOnly : ApiLayerCreateInfo :=
  ⟨XR_LOADER_INTERFACE_STRUCT_API_LAYER_CREATE_INFO, XR_API_LAYER_CREATE_INFO_STRUCT_VERSION,
   sizeofXrApiLayerCreateInfo, [headNodeL]⟩

/-- An envelope with a mismatched structure-size field. -/
def infoBadSize : ApiLayerCreateInfo :=
  ⟨XR_LOADER_INTERFACE_STRUCT_API_LAYER_CREATE_INFO, XR_API_LAYER_CREATE_INFO_STRUCT_VERSION,
   sizeofXrApiLayerCreateInfo + 1, [headNodeL]⟩

/-- Layer `"L"` with one implicit requirement `"X"`, nothing blocked. -/
def cfgImplicitX : Config := ⟨"L", ["X"], [], []⟩

/-- Layer `"L"` with no implicit requirements, blocking `"B"`. -/
def cfgBlockB : Config := ⟨"L", [], ["B"], []⟩

/-- Layer `"L"` whose only implicit requirement `"X"` is also blocked. -/
def cfgOverlapX : Config := ⟨"L", ["X"], ["X"], []⟩

/-- Layer `"L"` advertising two extensions. -/
def cfgAdvertisesTwo : Config := ⟨"L", [], [], [("A", 1), ("C", 2)]⟩

/-- A cooperative environment: the runtime advertises `"X"`, downstream
creation and local initialization succeed. -/
def envHealthyX : CreateEnv := ⟨probeYieldX1, XR_SUCCESS, .ok XR_SUCCESS, XR_SUCCESS, none⟩

/-- An environment whose runtime advertises nothing. -/
def envNothing : CreateEnv := ⟨probeResolveFails, XR_SUCCESS, .ok XR_SUCCESS, XR_SUCCESS, none⟩

/-- An environment where downstream creation succeeds but the layer's own
`xrCreateInstance` throws, and `xrDestroyInstance` resolves. -/
def envLocalInitThrows : CreateEnv :=
  ⟨probeResolveFails, XR_SUCCESS, .error "boom", XR_SUCCESS, none⟩

/-- An environment injecting a fault (for example an allocation failure
inside `Log`/`fmt::format`) in the unguarded region after validation. -/
def envNegotiationFault : CreateEnv :=
  ⟨probeResolveFails, XR_SUCCESS, .ok XR_SUCCESS, XR_SUCCESS, some "bad_alloc"⟩

/-- A probe advertising `"X"` v1 then `"Y"` v3. -/
def probeTwoEntries : ProbeTarget := ⟨0, 0, 2, 0, [⟨"X", 1⟩, ⟨"Y", 3⟩]⟩

/-- The same advertisement with the two names swapped. -/
def probeTwoEntriesSwapped : ProbeTarget := ⟨0, 0, 2, 0, [⟨"Y", 3⟩, ⟨"X", 1⟩]⟩

/-- A downstream layer node advertising `"X"` v1 then `"Y"` v3. -/
def nodeTwo : NextInfoNode :=
  ⟨XR_LOADER_INTERFACE_STRUCT_API_LAYER_NEXT_INFO, XR_API_LAYER_NEXT_INFO_STRUCT_VERSION,
   sizeofXrApiLayerNextInfo, some "L1", true, true, probeTwoEntries⟩

/-- The same node with its advertised names permuted. -/
def nodeTwoSwapped : NextInfoNode :=
  ⟨XR_LOADER_INTERFACE_STRUCT_API_LAYER_NEXT_INFO, XR_API_LAYER_NEXT_INFO_STRUCT_VERSION,
   sizeofXrApiLayerNextInfo, some "L1", true, true, probeTwoEntriesSwapped⟩

/-! ## Lemmas: the availability map -/

theorem optOr_none_right (o : Option Nat) : optOr o none = o := by
  cases o <;> rfl

theorem optOr_assoc (a b c : Option Nat) : optOr (optOr a b) c = optOr a (optOr b c) := by
  cases a <;> rfl

theorem lookupExtension_append_single (m : List (String × Nat)) (k x : String) (v : Nat) :
    lookupExtension (m ++ [(k, v)]) x =
      optOr (lookupExtension m x) (if k == x then some v else none) := by
  induction m with
  | nil => cases h : k == x <;> simp [lookupExtension, optOr, h]
  | cons e m ih => cases h : e.1 == x <;> simp [lookupExtension, h, ih, optOr]

theorem lookupExtension_emplace (m : List (String × Nat)) (k x : String) (v : Nat) :
    lookupExtension (emplaceExtension m k v) x =
      optOr (lookupExtension m x) (if k == x then some v else none) := by
  unfold emplaceExtension
  cases hk : (lookupExtension m k).isSome with
  | true =>
    simp only [hk, if_true]
    cases hkk : k == x with
    | true =>
      have : k = x := by
        have := eq_of_beq hkk
        exact this
      subst this
      cases hx : lookupExtension m k with
      | none => rw [hx] at hk; simp at hk
      | some w => simp [hx, optOr]
    | false => simp [optOr_none_right]
  | false =>
    simp only [hk, Bool.false_eq_true, if_false]
    exact lookupExtension_append_single m k x v

theorem lookupExtension_applyEntries (entries : List (String × Nat))
    (m : List (String × Nat)) (x : String) :
    lookupExtension (applyEntries m entries) x =
      optOr (lookupExtension m x) (lookupExtension entries x) := by
  induction entries generalizing m with
  | nil => simp [applyEntries, lookupExtension, optOr_none_right]
  | cons e rest ih =>
    have hstep : applyEntries m (e :: rest) = applyEntries (emplaceExtension m e.1 e.2) rest := rfl
    rw [hstep, ih, lookupExtension_emplace, optOr_assoc]
    congr 1
    cases h : e.1 == x <;> simp [lookupExtension, h, optOr]

theorem lookupExtension_isSome_iff (m : List (String × Nat)) (x : String) :
    (lookupExtension m x).isSome = true ↔ x ∈ m.map Prod.fst := by
  induction m with
  | nil => simp [lookupExtension]
  | cons e rest ih =>
    cases h : e.1 == x with
    | true =>
      have : e.1 = x := eq_of_beq h
      simp [lookupExtension, h, this]
    | false =>
      have : ¬ e.1 = x := by
        intro heq
        rw [heq] at h
        simp at h
      simp [lookupExtension, h, ih]
      intro hx
      exact absurd hx.symm this

theorem applyEntries_append (m : List (String × Nat)) (a b : List (String × Nat)) :
    applyEntries m (a ++ b) = applyEntries (applyEntries m a) b := by
  simp [applyEntries, List.foldl_append]

theorem appendAvailableExtensions_eq_applyEntries (p : ProbeTarget)
    (avail : List (String × Nat)) :
    appendAvailableExtensions p avail = applyEntries avail (probeEntries p) := by
  simp [appendAvailableExtensions, applyEntries, probeEntries, List.foldl_map]

theorem foldl_append_nodes (nodes : List NextInfoNode) (m : List (String × Nat)) :
    nodes.foldl (fun acc node => appendAvailableExtensions node.advertise acc) m =
      applyEntries m (concatLists (nodes.map (fun n => probeEntries n.advertise))) := by
  induction nodes generalizing m with
  | nil => rfl
  | cons n ns ih =>
    simp only [List.foldl_cons, List.map_cons, concatLists]
    rw [ih, appendAvailableExtensions_eq_applyEntries, applyEntries_append]

theorem collectAvailableExtensions_eq (nodes : List NextInfoNode) (runtime : ProbeTarget) :
    collectAvailableExtensions nodes runtime =
      applyEntries [] (chainContributedEntries nodes runtime) := by
  unfold collectAvailableExtensions chainContributedEntries
  rw [foldl_append_nodes, appendAvailableExtensions_eq_applyEntries, applyEntries_append]

theorem lookupExtension_collect (nodes : List NextInfoNode) (runtime : ProbeTarget)
    (x : String) :
    lookupExtension (collectAvailableExtensions nodes runtime) x =
      lookupExtension (chainContributedEntries nodes runtime) x := by
  rw [collectAvailableExtensions_eq, lookupExtension_applyEntries]
  simp [lookupExtension, optOr]

theorem lookupExtension_collect_isSome (nodes : List NextInfoNode) (runtime : ProbeTarget)
    (x : String) :
    (lookupExtension (collectAvailableExtensions nodes runtime) x).isSome = true ↔
      x ∈ chainAvailableNames nodes runtime := by
  rw [lookupExtension_collect, chainAvailableNames]
  exact lookupExtension_isSome_iff _ x

/-! ## Lemmas: negotiation -/

theorem negotiateImplicit_ok (l : List String) (avail : List (String × Nat))
    (h : ∀ e ∈ l, (lookupExtension avail e).isSome = true) :
    negotiateImplicit l avail = .ok l := by
  induction l with
  | nil => rfl
  | cons n rest ih =>
    have hn := h n (by simp)
    have hrest : ∀ e ∈ rest, (lookupExtension avail e).isSome = true := by
      intro e he
      exact h e (by simp [he])
    simp [negotiateImplicit, hn, ih hrest]

theorem negotiateImplicit_error (l : List String) (avail : List (String × Nat))
    (h : ¬ ∀ e ∈ l, (lookupExtension avail e).isSome = true) :
    ∃ msg, negotiateImplicit l avail = .error msg := by
  induction l with
  | nil => exact absurd (by intro e he; cases he) h
  | cons n rest ih =>
    cases hn : (lookupExtension avail n).isSome with
    | false => exact ⟨n, by simp [negotiateImplicit, hn]⟩
    | true =>
      have hrest : ¬ ∀ e ∈ rest, (lookupExtension avail e).isSome = true := by
        intro hall
        exact h (by
          intro e he
          rcases List.mem_cons.mp he with rfl | hmem
          · exact hn
          · exact hall e hmem)
      obtain ⟨msg, hmsg⟩ := ih hrest
      exact ⟨msg, by simp [negotiateImplicit, hn, hmsg]⟩

theorem negotiateImplicit_congr (l : List String) (a b : List (String × Nat))
    (h : ∀ x, (lookupExtension a x).isSome = (lookupExtension b x).isSome) :
    negotiateImplicit l a = negotiateImplicit l b := by
  induction l with
  | nil => rfl
  | cons n rest ih =>
    simp only [negotiateImplicit, h n, ih]

/-! ## Lemmas: the create path -/

theorem xrCreateApiLayerInstance_valid (cfg : Config) (env : CreateEnv)
    (ici : InstanceCreateInfo) (info : ApiLayerCreateInfo)
    (hvalid : validApiLayerInfo cfg info = true) :
    xrCreateApiLayerInstance cfg env ici (some info) =
      createAfterValidation cfg env ici info.nextInfo.tail := by
  simp [xrCreateApiLayerInstance, hvalid]

theorem createAfterValidation_grant (cfg : Config) (env : CreateEnv)
    (ici : InstanceCreateInfo) (tailNodes : List NextInfoNode)
    (hfault : env.negotiationFault = none)
    (hgrant : ∀ e ∈ cfg.implicitExtensions,
      e ∈ chainAvailableNames tailNodes env.runtimeAdvertise) :
    createAfterValidation cfg env ici tailNodes =
      .ok (createForwardAndAttach cfg env ici cfg.implicitExtensions
        (if cfg.implicitExtensions.isEmpty then 0 else tailNodes.length + 1)) := by
  unfold createAfterValidation
  rw [hfault]
  cases hemp : cfg.implicitExtensions.isEmpty with
  | true =>
    have : cfg.implicitExtensions = [] := List.isEmpty_iff.mp hemp
    simp [this]
  | false =>
    have hok : negotiateImplicit cfg.implicitExtensions
        (collectAvailableExtensions tailNodes env.runtimeAdvertise) =
          .ok cfg.implicitExtensions := by
      apply negotiateImplicit_ok
      intro e he
      exact (lookupExtension_collect_isSome tailNodes env.runtimeAdvertise e).mpr (hgrant e he)
    simp [hemp, hok]

theorem createAfterValidation_missing (cfg : Config) (env : CreateEnv)
    (ici : InstanceCreateInfo) (tailNodes : List NextInfoNode)
    (hfault : env.negotiationFault = none)
    (hmiss : ¬ ∀ e ∈ cfg.implicitExtensions,
      e ∈ chainAvailableNames tailNodes env.runtimeAdvertise) :
    createAfterValidation cfg env ici tailNodes =
      .ok (XR_ERROR_EXTENSION_NOT_PRESENT,
        { noEffects with probeCalls := tailNodes.length + 1 }) := by
  unfold createAfterValidation
  rw [hfault]
  have hemp : cfg.implicitExtensions.isEmpty = false := by
    cases hemp : cfg.implicitExtensions.isEmpty with
    | false => rfl
    | true =>
      have : cfg.implicitExtensions = [] := List.isEmpty_iff.mp hemp
      exact absurd (by intro e he; rw [this] at he; cases he) hmiss
  have herr : ∃ msg, negotiateImplicit cfg.implicitExtensions
      (collectAvailableExtensions tailNodes env.runtimeAdvertise) = .error msg := by
    apply negotiateImplicit_error
    intro hall
    exact hmiss (by
      intro e he
      exact (lookupExtension_collect_isSome tailNodes env.runtimeAdvertise e).mp (hall e he))
  obtain ⟨msg, hmsg⟩ := herr
  simp [hemp, hmsg]

theorem createForwardAndAttach_downstreamCalled (cfg : Config) (env : CreateEnv)
    (ici : InstanceCreateInfo) (granted : List String) (probes : Nat) :
    (createForwardAndAttach cfg env ici granted probes).2.downstreamCreateCalled = true := by
  unfold createForwardAndAttach
  cases h : env.localInit <;> simp only [h] <;> split_ifs <;> rfl

theorem createForwardAndAttach_forwarded (cfg : Config) (env : CreateEnv)
    (ici : InstanceCreateInfo) (granted : List String) (probes : Nat) :
    (createForwardAndAttach cfg env ici granted probes).2.forwardedExtensionNames =
      some (forwardedExtensionList cfg ici granted) := by
  unfold createForwardAndAttach
  cases h : env.localInit <;> simp only [h] <;> split_ifs <;> rfl

theorem createForwardAndAttach_healthy (cfg : Config) (env : CreateEnv)
    (ici : InstanceCreateInfo) (granted : List String) (probes : Nat)
    (hds : env.nextCreateResult = XR_SUCCESS)
    (hinit : env.localInit = Except.ok XR_SUCCESS) :
    createForwardAndAttach cfg env ici granted probes =
      (XR_SUCCESS,
        ⟨probes, true, some (forwardedExtensionList cfg ici granted), true, 0, 0⟩) := by
  unfold createForwardAndAttach
  rw [hds, hinit]
  simp [XR_SUCCESS, XR_FAILED]

theorem createForwardAndAttach_throw (cfg : Config) (env : CreateEnv)
    (ici : InstanceCreateInfo) (granted : List String) (probes : Nat) (msg : String)
    (hds : env.nextCreateResult = XR_SUCCESS)
    (hinit : env.localInit = Except.error msg) :
    createForwardAndAttach cfg env ici granted probes =
      (XR_ERROR_RUNTIME_FAILURE,
        ⟨probes, true, some (forwardedExtensionList cfg ici granted), true, 1,
          if XR_SUCCEEDED env.destroyResolveResult then 1 else 0⟩) := by
  unfold createForwardAndAttach
  rw [hds, hinit]
  simp [XR_SUCCESS, XR_FAILED, XR_ERROR_RUNTIME_FAILURE]

theorem containsString_iff (l : List String) (a : String) :
    l.contains a = true ↔ a ∈ l := by
  induction l with
  | nil => simp
  | cons b t ih =>
    by_cases h : a = b
    · subst h
      simp
    · have hb : (a == b) = false := by
        cases hab : a == b with
        | false => rfl
        | true => exact absurd (eq_of_beq hab) h
      simp [List.contains_cons, hb, h, ih]

/-! ## Claim theorems -/

/-- **C1**: For every structurally valid handshake envelope (whose chain
therefore has length ≥ 1), and absent spontaneous faults,
`xrCreateApiLayerInstance` passes the negotiation gate iff every name in
`implicitExtensions` occurs in the union of the capability names yielded by
all downstream links including the runtime: when all are present the
downstream creation entry point is invoked (and the call succeeds whenever
the downstream creation and the layer's own initialization succeed); when
some implicit requirement is absent the call returns
`XR_ERROR_EXTENSION_NOT_PRESENT` and the downstream creation entry point is
never invoked; and a successful call implies all requirements were present. -/
theorem create_succeeds_iff_implicit_available (cfg : Config) (env : CreateEnv)
    (ici : InstanceCreateInfo) (info : ApiLayerCreateInfo)
    (hvalid : validApiLayerInfo cfg info = true)
    (hfault : env.negotiationFault = none) :
    ((∀ e ∈ cfg.implicitExtensions,
        e ∈ chainAvailableNames info.nextInfo.tail env.runtimeAdvertise) →
      (outcomeEffects (xrCreateApiLayerInstance cfg env ici (some info))).map
          (fun eff => eff.downstreamCreateCalled) = some true ∧
      (env.nextCreateResult = XR_SUCCESS → env.localInit = Except.ok XR_SUCCESS →
        outcomeResult (xrCreateApiLayerInstance cfg env ici (some info)) = some XR_SUCCESS))
    ∧ ((¬ ∀ e ∈ cfg.implicitExtensions,
        e ∈ chainAvailableNames info.nextInfo.tail env.runtimeAdvertise) →
      outcomeResult (xrCreateApiLayerInstance cfg env ici (some info)) =
          some XR_ERROR_EXTENSION_NOT_PRESENT ∧
      (outcomeEffects (xrCreateApiLayerInstance cfg env ici (some info))).map
          (fun eff => eff.downstreamCreateCalled) = some false)
    ∧ (outcomeResult (xrCreateApiLayerInstance cfg env ici (some info)) = some XR_SUCCESS →
      ∀ e ∈ cfg.implicitExtensions,
        e ∈ chainAvailableNames info.nextInfo.tail env.runtimeAdvertise) := by
  rw [xrCreateApiLayerInstance_valid cfg env ici info hvalid]
  refine ⟨?_, ?_, ?_⟩
  · intro hgrant
    rw [createAfterValidation_grant cfg env ici _ hfault hgrant]
    constructor
    · simp [outcomeEffects, createForwardAndAttach_downstreamCalled]
    · intro hds hinit
      rw [createForwardAndAttach_healthy cfg env ici _ _ hds hinit]
      rfl
  · intro hmiss
    rw [createAfterValidation_missing cfg env ici _ hfault hmiss]
    exact ⟨rfl, rfl⟩
  · intro hsucc
    by_contra hmiss
    rw [createAfterValidation_missing cfg env ici _ hfault hmiss] at hsucc
    simp [outcomeResult, XR_ERROR_EXTENSION_NOT_PRESENT, XR_SUCCESS] at hsucc

/-- Witness for C1: layer `"L"` requires `"X"`, the runtime advertises
`"X"` v1, downstream creation and local initialization succeed, so the
call returns `XR_SUCCESS`. -/
theorem create_succeeds_iff_implicit_available_witness :
    outcomeResult (xrCreateApiLayerInstance cfgImplicitX envHealthyX ⟨[]⟩
      (some infoRuntimeOnly)) = some XR_SUCCESS :=
  ((create_succeeds_iff_implicit_available cfgImplicitX envHealthyX ⟨[]⟩ infoRuntimeOnly
      (by decide) rfl).1 (by decide)).2 rfl rfl

/-- **C2**: For every incoming envelope failing structural validation (null
`apiLayerInfo`, or any mismatch among the structure tag / version / size of
the envelope or its `nextInfo` head, a head layer name different from this
layer's own, or a null downstream accessor — exactly the cases enumerated in
`validApiLayerInfo` and `validNextInfoHead`), `xrCreateApiLayerInstance`
returns `XR_ERROR_INITIALIZATION_FAILED` with `noEffects`: no probe, no
downstream creation, no local initialization, no destroy call. -/
theorem create_invalid_envelope_fails (cfg : Config) (env : CreateEnv)
    (ici : InstanceCreateInfo) (apiLayerInfo : Option ApiLayerCreateInfo)
    (hbad : apiLayerInfo = none ∨
      ∃ info, apiLayerInfo = some info ∧ validApiLayerInfo cfg info = false) :
    xrCreateApiLayerInstance cfg env ici apiLayerInfo =
      .ok (XR_ERROR_INITIALIZATION_FAILED, noEffects) := by
  rcases hbad with rfl | ⟨info, rfl, hinv⟩
  · rfl
  · simp [xrCreateApiLayerInstance, hinv]

/-- Witness for C2: an envelope with a mismatched structure-size field is
rejected with `XR_ERROR_INITIALIZATION_FAILED` and zero downstream calls. -/
theorem create_invalid_envelope_fails_witness :
    xrCreateApiLayerInstance cfgImplicitX envHealthyX ⟨[]⟩ (some infoBadSize) =
      .ok (XR_ERROR_INITIALIZATION_FAILED, noEffects) :=
  create_invalid_envelope_fails cfgImplicitX envHealthyX ⟨[]⟩ (some infoBadSize)
    (Or.inr ⟨infoBadSize, rfl, by decide⟩)

/-- **C3** (amended): for every valid envelope reaching the forwarding step,
the forwarded capability list equals the caller's requested names with every
blocked name removed (relative order preserved) followed by the negotiated
implicit names; a name present in both the caller's request and the blocked
list never appears among the caller-derived entries of the forwarded list —
it can appear only when it is also a negotiated implicit capability. -/
theorem forwarded_request_composition (cfg : Config) (env : CreateEnv)
    (ici : InstanceCreateInfo) (info : ApiLayerCreateInfo)
    (hvalid : validApiLayerInfo cfg info = true)
    (hfault : env.negotiationFault = none)
    (hgrant : ∀ e ∈ cfg.implicitExtensions,
      e ∈ chainAvailableNames info.nextInfo.tail env.runtimeAdvertise) :
    (outcomeEffects (xrCreateApiLayerInstance cfg env ici (some info))).map
        (fun eff => eff.forwardedExtensionNames) =
      some (some (ici.enabledExtensionNames.filter
          (fun ext => !(cfg.blockedExtensions.contains ext)) ++ cfg.implicitExtensions)) ∧
    (∀ e ∈ cfg.blockedExtensions,
      e ∈ ici.enabledExtensionNames.filter
          (fun ext => !(cfg.blockedExtensions.contains ext)) ++ cfg.implicitExtensions →
      e ∈ cfg.implicitExtensions) := by
  constructor
  · rw [xrCreateApiLayerInstance_valid cfg env ici info hvalid,
        createAfterValidation_grant cfg env ici _ hfault hgrant]
    simp [outcomeEffects, createForwardAndAttach_forwarded, forwardedExtensionList]
  · intro e hblocked hmem
    rcases List.mem_append.mp hmem with hfil | himp
    · have hcond := List.of_mem_filter hfil
      rw [(containsString_iff cfg.blockedExtensions e).mpr hblocked] at hcond
      simp at hcond
    · exact himp

/-- Witness for C3 (amended): layer `"L"` blocks `"B"` and implicitly
requires `"X"`; a caller requesting `["R", "B"]` gets `["R", "X"]`
forwarded. -/
theorem forwarded_request_composition_witness :
    (outcomeEffects (xrCreateApiLayerInstance ⟨"L", ["X"], ["B"], []⟩ envHealthyX
        ⟨["R", "B"]⟩ (some infoRuntimeOnly))).map
      (fun eff => eff.forwardedExtensionNames) = some (some (["R"] ++ ["X"])) :=
  (forwarded_request_composition ⟨"L", ["X"], ["B"], []⟩ envHealthyX ⟨["R", "B"]⟩
    infoRuntimeOnly (by decide) rfl (by decide)).1

/-- Counterexample for C3 as stated: with `"X"` both requested by the caller
and in the blocked list, but also an implicit requirement available
downstream, `"X"` does appear in the forwarded list. -/
theorem forwarded_blocked_cex :
    "X" ∈ cfgOverlapX.blockedExtensions ∧
    "X" ∈ (⟨["X"]⟩ : InstanceCreateInfo).enabledExtensionNames ∧
    (outcomeEffects (xrCreateApiLayerInstance cfgOverlapX envHealthyX ⟨["X"]⟩
        (some infoRuntimeOnly))).map (fun eff => eff.forwardedExtensionNames) =
      some (some ["X"]) := by
  refine ⟨by decide, by decide, ?_⟩
  decide

/-- **C4**: when the downstream creation entry point succeeds but the
layer's own initialization throws, `xrCreateApiLayerInstance` returns
`XR_ERROR_RUNTIME_FAILURE`, resolves `xrDestroyInstance` exactly once and
invokes it exactly once when resolution succeeded (zero times otherwise);
the returned status does not depend on `destroyResolveResult`, which is
universally quantified here. -/
theorem rollback_on_local_init_failure (cfg : Config) (env : CreateEnv)
    (ici : InstanceCreateInfo) (info : ApiLayerCreateInfo) (msg : String)
    (hvalid : validApiLayerInfo cfg info = true)
    (hfault : env.negotiationFault = none)
    (hgrant : ∀ e ∈ cfg.implicitExtensions,
      e ∈ chainAvailableNames info.nextInfo.tail env.runtimeAdvertise)
    (hds : env.nextCreateResult = XR_SUCCESS)
    (hinit : env.localInit = Except.error msg) :
    outcomeResult (xrCreateApiLayerInstance cfg env ici (some info)) =
        some XR_ERROR_RUNTIME_FAILURE ∧
    (outcomeEffects (xrCreateApiLayerInstance cfg env ici (some info))).map
        (fun eff => eff.destroyResolveAttempts) = some 1 ∧
    (outcomeEffects (xrCreateApiLayerInstance cfg env ici (some info))).map
        (fun eff => eff.destroyInvocations) =
      some (if XR_SUCCEEDED env.destroyResolveResult then 1 else 0) ∧
    (outcomeEffects (xrCreateApiLayerInstance cfg env ici (some info))).map
        (fun eff => eff.downstreamCreateCalled) = some true := by
  rw [xrCreateApiLayerInstance_valid cfg env ici info hvalid,
      createAfterValidation_grant cfg env ici _ hfault hgrant,
      createForwardAndAttach_throw cfg env ici _ _ msg hds hinit]
  exact ⟨rfl, rfl, rfl, rfl⟩

/-- Witness for C4: downstream creation succeeds, local initialization
throws `"boom"`, destroy resolution succeeds: status is
`XR_ERROR_RUNTIME_FAILURE` and the destroy call is attempted once. -/
theorem rollback_on_local_init_failure_witness :
    outcomeResult (xrCreateApiLayerInstance cfgBlockB envLocalInitThrows ⟨[]⟩
        (some infoRuntimeOnly)) = some XR_ERROR_RUNTIME_FAILURE ∧
    (outcomeEffects (xrCreateApiLayerInstance cfgBlockB envLocalInitThrows ⟨[]⟩
        (some infoRuntimeOnly))).map (fun eff => eff.destroyInvocations) = some 1 := by
  have h := rollback_on_local_init_failure cfgBlockB envLocalInitThrows ⟨[]⟩
    infoRuntimeOnly "boom" (by decide) rfl (by decide) rfl rfl
  exact ⟨h.1, by rw [h.2.2.1]; rfl⟩

/-- **C5**: `xrGetInstanceProcAddr` resolves with a fixed priority: the two
enumeration names always resolve to this layer's own implementations with
`XR_SUCCESS` regardless of the instance handle; any other non-null name with
an instance handle present is delegated to the per-instance dispatcher (its
status and slot write adopted verbatim); otherwise (null name, or no
instance handle) the call returns `XR_ERROR_FUNCTION_UNSUPPORTED`. -/
theorem proc_addr_resolution_priority (env : ProcAddrEnv) (instancePresent : Bool)
    (slot : FunctionSlot) (hfault : env.fault = none) :
    (∀ inst : Bool, xrGetInstanceProcAddr env inst
        (some "xrEnumerateInstanceExtensionProperties") slot =
      (XR_SUCCESS, .ownEnumerateInstanceExtensionProperties)) ∧
    (∀ inst : Bool, xrGetInstanceProcAddr env inst
        (some "xrEnumerateApiLayerProperties") slot =
      (XR_SUCCESS, .ownEnumerateApiLayerProperties)) ∧
    (∀ n : String, n ≠ "xrEnumerateInstanceExtensionProperties" →
      n ≠ "xrEnumerateApiLayerProperties" →
      xrGetInstanceProcAddr env true (some n) slot =
        (env.dispatcherResult, env.dispatcherWrites.getD slot)) ∧
    (xrGetInstanceProcAddr env instancePresent none slot =
      (XR_ERROR_FUNCTION_UNSUPPORTED, slot)) ∧
    (∀ n : String, n ≠ "xrEnumerateInstanceExtensionProperties" →
      n ≠ "xrEnumerateApiLayerProperties" →
      xrGetInstanceProcAddr env false (some n) slot =
        (XR_ERROR_FUNCTION_UNSUPPORTED, slot)) := by
  refine ⟨?_, ?_, ?_, ?_, ?_⟩
  · intro inst
    simp [xrGetInstanceProcAddr, hfault]
  · intro inst
    simp [xrGetInstanceProcAddr, hfault]
  · intro n h1 h2
    have b1 : (n == "xrEnumerateInstanceExtensionProperties") = false :=
      beq_eq_false_iff_ne.mpr h1
    have b2 : (n == "xrEnumerateApiLayerProperties") = false :=
      beq_eq_false_iff_ne.mpr h2
    simp [xrGetInstanceProcAddr, hfault, b1, b2]
  · simp [xrGetInstanceProcAddr, hfault]
  · intro n h1 h2
    have b1 : (n == "xrEnumerateInstanceExtensionProperties") = false :=
      beq_eq_false_iff_ne.mpr h1
    have b2 : (n == "xrEnumerateApiLayerProperties") = false :=
      beq_eq_false_iff_ne.mpr h2
    simp [xrGetInstanceProcAddr, hfault, b1, b2]

/-- Witness for C5: with no instance handle at all, the extension
enumeration name still resolves to this layer's own implementation. -/
theorem proc_addr_resolution_priority_witness :
    xrGetInstanceProcAddr ⟨XR_SUCCESS, some .dispatcherValue, none⟩ false
        (some "xrEnumerateInstanceExtensionProperties") (.raw 7) =
      (XR_SUCCESS, .ownEnumerateInstanceExtensionProperties) :=
  (proc_addr_resolution_priority ⟨XR_SUCCESS, some .dispatcherValue, none⟩ false
    (.raw 7) rfl).1 false

/-- **C10**: whenever `xrGetInstanceProcAddr` returns
`XR_ERROR_FUNCTION_UNSUPPORTED` through the fall-through (null name, or a
name that is not one of the two enumeration overrides with no instance
handle supplied), the caller's function slot is left exactly as the caller
stored it. -/
theorem proc_addr_unsupported_frame (env : ProcAddrEnv) (slot : FunctionSlot)
    (hfault : env.fault = none) :
    (∀ inst : Bool, xrGetInstanceProcAddr env inst none slot =
      (XR_ERROR_FUNCTION_UNSUPPORTED, slot)) ∧
    (∀ n : String, n ≠ "xrEnumerateInstanceExtensionProperties" →
      n ≠ "xrEnumerateApiLayerProperties" →
      xrGetInstanceProcAddr env false (some n) slot =
        (XR_ERROR_FUNCTION_UNSUPPORTED, slot)) := by
  constructor
  · intro inst
    simp [xrGetInstanceProcAddr, hfault]
  · intro n h1 h2
    have b1 : (n == "xrEnumerateInstanceExtensionProperties") = false :=
      beq_eq_false_iff_ne.mpr h1
    have b2 : (n == "xrEnumerateApiLayerProperties") = false :=
      beq_eq_false_iff_ne.mpr h2
    simp [xrGetInstanceProcAddr, hfault, b1, b2]

/-- Witness for C10: a lookup of `"xrDestroyInstance"` with no instance
handle keeps the caller's stored slot value `raw 42` intact. -/
theorem proc_addr_unsupported_frame_witness :
    xrGetInstanceProcAddr ⟨XR_SUCCESS, none, none⟩ false
        (some "xrDestroyInstance") (.raw 42) =
      (XR_ERROR_FUNCTION_UNSUPPORTED, .raw 42) :=
  (proc_addr_unsupported_frame ⟨XR_SUCCESS, none, none⟩ (.raw 42) rfl).2
    "xrDestroyInstance" (by decide) (by decide)

/-! ## Lemmas: probe failure behaviour -/

theorem emplaceExtension_of_isSome (m : List (String × Nat)) (k : String) (v : Nat)
    (h : (lookupExtension m k).isSome = true) : emplaceExtension m k v = m := by
  simp [emplaceExtension, h]

theorem foldl_replicate_default (n : Nat) (avail : List (String × Nat)) :
    (List.replicate n defaultExtensionProperties).foldl
      (fun m ext => emplaceExtension m ext.extensionName ext.extensionVersion) avail =
    if n = 0 then avail else emplaceExtension avail "" 0 := by
  induction n generalizing avail with
  | zero => rfl
  | succ k ih =>
    rw [List.replicate_succ, List.foldl_cons, ih]
    cases k with
    | zero => simp [defaultExtensionProperties]
    | succ j =>
      have hsome : (lookupExtension (emplaceExtension avail "" 0) "").isSome = true := by
        rw [lookupExtension_emplace]
        cases hl : lookupExtension avail "" <;> simp [optOr]
      simp [defaultExtensionProperties, emplaceExtension_of_isSome _ _ _ hsome]

/-- Counterexample for C6 as stated: a probe whose count query succeeds
reporting one extension but whose fill call fails (writing nothing) does add
an entry — the default-initialized placeholder `("", 0)` — to the
availability map, so a failing enumeration call does not always contribute
an empty set. -/
theorem probe_fill_failure_cex :
    XR_SUCCEEDED probeFillFails.resolveResult = true ∧
    XR_SUCCEEDED probeFillFails.countResult = true ∧
    XR_FAILED probeFillFails.fillResult = true ∧
    appendAvailableExtensions probeFillFails [] = [("", 0)] := by
  refine ⟨rfl, rfl, rfl, ?_⟩
  decide

/-- **C6** (amended): a probe never aborts the negotiation (its statuses are
never propagated — `appendAvailableExtensions` is total and its result feeds
the map unconditionally).  When resolving the enumeration function fails the
probe contributes nothing.  When resolution succeeds but the count query or
the fill call fails (the callee writing nothing), the probe contributes no
genuine capability name: only the placeholder entry `("", 0)` from the
default-initialized buffer, and only when the reported count is non-zero. -/
theorem probe_failure_contribution (p : ProbeTarget) (avail : List (String × Nat)) :
    (XR_SUCCEEDED p.resolveResult = false → appendAvailableExtensions p avail = avail) ∧
    (XR_SUCCEEDED p.resolveResult = true → XR_SUCCEEDED p.countResult = false →
      appendAvailableExtensions p avail =
        if p.countValue = 0 then avail else emplaceExtension avail "" 0) ∧
    (XR_SUCCEEDED p.resolveResult = true → XR_SUCCEEDED p.countResult = true →
      p.fillEntries = [] →
      appendAvailableExtensions p avail =
        if p.countValue = 0 then avail else emplaceExtension avail "" 0) := by
  refine ⟨?_, ?_, ?_⟩
  · intro h
    simp [appendAvailableExtensions, probeBuffer, h]
  · intro h1 h2
    rw [appendAvailableExtensions, probeBuffer]
    simp only [h1, h2, if_true, Bool.false_eq_true, if_false]
    exact foldl_replicate_default p.countValue avail
  · intro h1 h2 hfill
    rw [appendAvailableExtensions, probeBuffer]
    simp only [h1, h2, hfill, if_true, List.take_nil, List.length_nil, Nat.sub_zero,
      List.nil_append]
    exact foldl_replicate_default p.countValue avail

/-- Witness for C6 (amended): a probe whose resolution fails contributes
nothing to a pre-existing availability map. -/
theorem probe_failure_contribution_witness :
    appendAvailableExtensions probeResolveFails [("A", 1)] = [("A", 1)] :=
  (probe_failure_contribution probeResolveFails [("A", 1)]).1 (by decide)

/-! ## Lemmas: order-dependence of the merge -/

theorem bool_eq_of_iff {a b : Bool} (h : a = true ↔ b = true) : a = b := by
  cases a <;> cases b <;> simp_all

theorem concatLists_append {α : Type} (a b : List (List α)) :
    concatLists (a ++ b) = concatLists a ++ concatLists b := by
  induction a with
  | nil => rfl
  | cons x xs ih => simp [concatLists, ih]

theorem chainAvailableNames_middle (pre post : List NextInfoNode) (node : NextInfoNode)
    (rt : ProbeTarget) (x : String) :
    x ∈ chainAvailableNames (pre ++ node :: post) rt ↔
      (x ∈ (probeEntries node.advertise).map Prod.fst ∨
       x ∈ chainAvailableNames (pre ++ post) rt) := by
  simp only [chainAvailableNames, chainContributedEntries, List.map_append, List.map_cons,
    concatLists_append, concatLists, List.mem_append]
  tauto

/-- **C7**: (a) the availability map retains every capability at its
first-seen version: looking it up agrees with the first occurrence in the
stream of all contributed `(name, version)` entries in chain order (no
version-max resolution); (b) permuting the capability entries advertised by
a single link does not change the negotiation outcome; (c) permuting the
links of the chain can change which version is retained for a duplicate
name: with links advertising `"X"` v1 and `"X"` v2, one chain order retains
version 1 and the swapped order retains version 2. -/
theorem first_seen_wins_and_order :
    (∀ (nodes : List NextInfoNode) (runtime : ProbeTarget) (x : String),
      lookupExtension (collectAvailableExtensions nodes runtime) x =
        lookupExtension (chainContributedEntries nodes runtime) x) ∧
    (∀ (implicit : List String) (pre post : List NextInfoNode)
        (node node' : NextInfoNode) (runtime : ProbeTarget),
      (probeBuffer node.advertise).Perm (probeBuffer node'.advertise) →
      negotiateImplicit implicit
          (collectAvailableExtensions (pre ++ node :: post) runtime) =
        negotiateImplicit implicit
          (collectAvailableExtensions (pre ++ node' :: post) runtime)) ∧
    (lookupExtension (collectAvailableExtensions [nodeAdvX1, nodeAdvX2] probeResolveFails) "X"
        = some 1 ∧
     lookupExtension (collectAvailableExtensions [nodeAdvX2, nodeAdvX1] probeResolveFails) "X"
        = some 2) := by
  refine ⟨lookupExtension_collect, ?_, by decide, by decide⟩
  intro implicit pre post node node' runtime hperm
  apply negotiateImplicit_congr
  intro x
  apply bool_eq_of_iff
  rw [lookupExtension_collect_isSome, lookupExtension_collect_isSome,
      chainAvailableNames_middle, chainAvailableNames_middle]
  have hmem : x ∈ (probeEntries node.advertise).map Prod.fst ↔
      x ∈ (probeEntries node'.advertise).map Prod.fst :=
    ((hperm.map (fun e => (e.extensionName, e.extensionVersion))).map Prod.fst).mem_iff
  rw [hmem]

/-- Witness for C7: swapping the two entries advertised by a single link
leaves the negotiation outcome unchanged. -/
theorem first_seen_wins_and_order_witness :
    negotiateImplicit ["X"] (collectAvailableExtensions [nodeTwo] probeResolveFails) =
      negotiateImplicit ["X"] (collectAvailableExtensions [nodeTwoSwapped] probeResolveFails) :=
  first_seen_wins_and_order.2.1 ["X"] [] [] nodeTwo nodeTwoSwapped probeResolveFails
    (by decide)

/-- Counterexample for C8 as stated: with a matching layer-name filter, a
non-null count output, capacity 1 strictly below the advertised count 2 but
a **null** properties buffer, the code returns `XR_ERROR_VALIDATION_FAILURE`
rather than the size-insufficient status the claim requires for every such
call. -/
theorem enumerate_null_buffer_cex :
    0 < 1 ∧ 1 < cfgAdvertisesTwo.advertisedExtensions.length ∧
    xrEnumerateInstanceExtensionProperties cfgAdvertisesTwo none (some "L") 1 true false =
      ⟨XR_ERROR_VALIDATION_FAILURE, none, none⟩ ∧
    XR_ERROR_VALIDATION_FAILURE ≠ XR_ERROR_SIZE_INSUFFICIENT := by
  refine ⟨by decide, by decide, rfl, by decide⟩

/-- **C8** (amended): for `xrEnumerateInstanceExtensionProperties` with a
matching layer-name filter and a non-null count output: capacity 0 writes
only the advertised count and succeeds; capacity > 0 **with a non-null
properties buffer** but below the advertised count returns
`XR_ERROR_SIZE_INSUFFICIENT` writing nothing; capacity ≥ the count with a
non-null buffer succeeds, filling exactly the advertised entries and the
count; capacity > 0 with a null buffer is a validation failure; and a null
or non-matching layer-name filter is a validation failure for any
capacity. -/
theorem enumerate_extension_properties_protocol (cfg : Config) (cap : Nat) :
    (∀ pp : Bool,
      xrEnumerateInstanceExtensionProperties cfg none (some cfg.layerName) 0 true pp =
        ⟨XR_SUCCESS, some cfg.advertisedExtensions.length, none⟩) ∧
    (0 < cap → cap < cfg.advertisedExtensions.length →
      xrEnumerateInstanceExtensionProperties cfg none (some cfg.layerName) cap true true =
        ⟨XR_ERROR_SIZE_INSUFFICIENT, none, none⟩) ∧
    (0 < cap → cfg.advertisedExtensions.length ≤ cap →
      xrEnumerateInstanceExtensionProperties cfg none (some cfg.layerName) cap true true =
        ⟨XR_SUCCESS, some cfg.advertisedExtensions.length,
          some (cfg.advertisedExtensions.map (fun e => ⟨e.1, e.2⟩))⟩) ∧
    (0 < cap →
      xrEnumerateInstanceExtensionProperties cfg none (some cfg.layerName) cap true false =
        ⟨XR_ERROR_VALIDATION_FAILURE, none, none⟩) ∧
    (∀ (ln : Option String), (∀ s, ln = some s → s ≠ cfg.layerName) →
      ∀ co pp : Bool,
      xrEnumerateInstanceExtensionProperties cfg none ln cap co pp =
        ⟨XR_ERROR_VALIDATION_FAILURE, none, none⟩) := by
  refine ⟨?_, ?_, ?_, ?_, ?_⟩
  · intro pp
    simp [xrEnumerateInstanceExtensionProperties]
  · intro hpos hlt
    have hne : (cap == 0) = false := by
      cases cap with
      | zero => exact absurd hpos (by decide)
      | succ k => rfl
    simp [xrEnumerateInstanceExtensionProperties, hne, hlt]
  · intro hpos hge
    have hne : (cap == 0) = false := by
      cases cap with
      | zero => exact absurd hpos (by decide)
      | succ k => rfl
    have hnlt : ¬ cap < cfg.advertisedExtensions.length := Nat.not_lt.mpr hge
    simp [xrEnumerateInstanceExtensionProperties, hne, hnlt]
  · intro hpos
    have hne : (cap == 0) = false := by
      cases cap with
      | zero => exact absurd hpos (by decide)
      | succ k => rfl
    simp [xrEnumerateInstanceExtensionProperties, hne]
  · intro ln hln co pp
    match ln, co with
    | none, _ => rfl
    | some s, false => rfl
    | some s, true =>
      have hne : (s != cfg.layerName) = true := bne_iff_ne.mpr (hln s rfl)
      simp [xrEnumerateInstanceExtensionProperties, hne]

/-- Witness for C8 (amended): for a layer advertising two extensions, a
filled query with capacity 1 is `XR_ERROR_SIZE_INSUFFICIENT` and writes
nothing. -/
theorem enumerate_extension_properties_protocol_witness :
    xrEnumerateInstanceExtensionProperties cfgAdvertisesTwo none (some "L") 1 true true =
      ⟨XR_ERROR_SIZE_INSUFFICIENT, none, none⟩ :=
  (enumerate_extension_properties_protocol cfgAdvertisesTwo 1).2.1 (by decide) (by decide)

/-- Counterexample for C9 as stated: `xrCreateApiLayerInstance` has no
outermost `try`/`catch`, so a fault raised in its negotiation region (for
example an allocation failure while logging the chain) escapes the entry
point as an exception instead of being converted to
`XR_ERROR_RUNTIME_FAILURE`: the call produces no status code at all. -/
theorem create_uncaught_fault_cex :
    xrCreateApiLayerInstance cfgImplicitX envNegotiationFault ⟨[]⟩ (some infoRuntimeOnly) =
      .error "bad_alloc" ∧
    outcomeResult (xrCreateApiLayerInstance cfgImplicitX envNegotiationFault ⟨[]⟩
      (some infoRuntimeOnly)) = none := by
  exact ⟨rfl, rfl⟩

/-- **C9** (amended): faults raised inside
`xrEnumerateInstanceExtensionProperties`, `xrEnumerateApiLayerProperties`
and `xrGetInstanceProcAddr` are caught at the entry-point boundary and
converted to `XR_ERROR_RUNTIME_FAILURE`; in `xrCreateApiLayerInstance` only
a fault from the layer's own `xrCreateInstance` call is caught (also
becoming `XR_ERROR_RUNTIME_FAILURE`), while a fault raised in its
negotiation region propagates out of the entry point uncaught. -/
theorem fault_boundary_behavior :
    (∀ (cfg : Config) (msg : String) (ln : Option String) (cap : Nat) (co pp : Bool),
      (xrEnumerateInstanceExtensionProperties cfg (some msg) ln cap co pp).result =
        XR_ERROR_RUNTIME_FAILURE) ∧
    (∀ (cfg : Config) (msg : String) (cap : Nat) (co pp : Bool),
      (xrEnumerateApiLayerProperties cfg (some msg) cap co pp).result =
        XR_ERROR_RUNTIME_FAILURE) ∧
    (∀ (env : ProcAddrEnv) (msg : String) (inst : Bool) (name : Option String)
        (slot : FunctionSlot), env.fault = some msg →
      (xrGetInstanceProcAddr env inst name slot).1 = XR_ERROR_RUNTIME_FAILURE) ∧
    (∀ (cfg : Config) (env : CreateEnv) (ici : InstanceCreateInfo)
        (info : ApiLayerCreateInfo) (msg : String),
      validApiLayerInfo cfg info = true → env.negotiationFault = some msg →
      xrCreateApiLayerInstance cfg env ici (some info) = .error msg) ∧
    (∀ (cfg : Config) (env : CreateEnv) (ici : InstanceCreateInfo)
        (info : ApiLayerCreateInfo) (msg : String),
      validApiLayerInfo cfg info = true → env.negotiationFault = none →
      (∀ e ∈ cfg.implicitExtensions,
        e ∈ chainAvailableNames info.nextInfo.tail env.runtimeAdvertise) →
      env.nextCreateResult = XR_SUCCESS → env.localInit = Except.error msg →
      outcomeResult (xrCreateApiLayerInstance cfg env ici (some info)) =
        some XR_ERROR_RUNTIME_FAILURE) := by
  refine ⟨?_, ?_, ?_, ?_, ?_⟩
  · intro cfg msg ln cap co pp
    rfl
  · intro cfg msg cap co pp
    rfl
  · intro env msg inst name slot hf
    simp [xrGetInstanceProcAddr, hf]
  · intro cfg env ici info msg hvalid hf
    rw [xrCreateApiLayerInstance_valid cfg env ici info hvalid]
    unfold createAfterValidation
    rw [hf]
  · intro cfg env ici info msg hvalid hf hgrant hds hinit
    rw [xrCreateApiLayerInstance_valid cfg env ici info hvalid,
        createAfterValidation_grant cfg env ici _ hf hgrant,
        createForwardAndAttach_throw cfg env ici _ _ msg hds hinit]
    rfl

/-- Witness for C9 (amended): a fault inside `xrGetInstanceProcAddr` is
converted to `XR_ERROR_RUNTIME_FAILURE` at the boundary. -/
theorem fault_boundary_behavior_witness :
    (xrGetInstanceProcAddr ⟨XR_SUCCESS, none, some "oops"⟩ true
      (some "xrDestroyInstance") (.raw 3)).1 = XR_ERROR_RUNTIME_FAILURE :=
  fault_boundary_behavior.2.2.1 ⟨XR_SUCCESS, none, some "oops"⟩ "oops" true
    (some "xrDestroyInstance") (.raw 3) rfl
